import Mathlib

/-!
Verification of the BloomSphere front-end core: the workflow state machine,
the response-normalization layer, the score-aggregation engine and the
export renderers, shallowly embedded from the TypeScript source
(`src/components/types.ts`, the `QuestionGenerator` component,
`src/components/PaperScorer.tsx`).  JavaScript numbers are modelled as
rationals; JavaScript arrays as lists; nullable/optional fields as `Option`.
-/

namespace Bloom

/-- The six Bloom categories, in the fixed significant order
(`CATEGORIES` in PaperScorer.tsx and `bloomCategories` in the generator). -/
inductive BloomCategory where
  | Remembering
  | Understanding
  | Applying
  | Analyzing
  | Evaluating
  | Creating
deriving DecidableEq, Repr

open BloomCategory

/-- Position of a category in the fixed six-category order. -/
def catIdx : BloomCategory → Nat
  | Remembering => 0
  | Understanding => 1
  | Applying => 2
  | Analyzing => 3
  | Evaluating => 4
  | Creating => 5

/-- The `CATEGORIES` constant of PaperScorer.tsx: the fixed order. -/
def CATEGORIES : List BloomCategory :=
  [Remembering, Understanding, Applying, Analyzing, Evaluating, Creating]

/-- Model of `BloomWeights = Record<BloomCategory, number>`: a record with the six
category fields, always constructed in the fixed insertion order
(every construction site of the source lists the keys in that order). -/
structure BloomWeights where
  remembering : ℚ
  understanding : ℚ
  applying : ℚ
  analyzing : ℚ
  evaluating : ℚ
  creating : ℚ
deriving DecidableEq, Repr

/-- Field lookup `w[category]`. -/
def getWeight (w : BloomWeights) : BloomCategory → ℚ
  | Remembering => w.remembering
  | Understanding => w.understanding
  | Applying => w.applying
  | Analyzing => w.analyzing
  | Evaluating => w.evaluating
  | Creating => w.creating

/-- Model of `Object.values(w)`: the six values in key insertion order. -/
def weightValues (w : BloomWeights) : List ℚ :=
  [w.remembering, w.understanding, w.applying, w.analyzing, w.evaluating, w.creating]

/-- Model of `Object.values(w).reduce((a, b) => a + b, 0)` — the sum-of-entries
computation used for `totalWeight`, `totalScore` in `StackedBar`, and the
per-item `maxScore` in `DetailedScore`. -/
def sumValues (w : BloomWeights) : ℚ :=
  (weightValues w).foldl (· + ·) 0

/-- Model of `DetailedScoreItem`: question text plus a per-category score vector. -/
structure DetailedScoreItem where
  question : String
  score : BloomWeights
deriving DecidableEq, Repr

/-- Model of `ScoreData`: overall totals, the ordered detailed scores, and the count. -/
structure ScoreData where
  totalScore : BloomWeights
  detailedScores : List DetailedScoreItem
  totalQuestions : Nat
deriving DecidableEq, Repr

/-- Question kinds (`QuestionType = 'text' | 'TrueFalse' | 'MCQ'`). -/
inductive QuestionType where
  | text
  | TrueFalse
  | MCQ
deriving DecidableEq, Repr

/-- Model of `ApiQuestionScore`: one scored question as returned by the Score endpoint. -/
structure ApiQuestionScore where
  question : String
  question_type : QuestionType
  option : Option (List String) := none
  remembering : ℚ
  understanding : ℚ
  applying : ℚ
  analyzing : ℚ
  evaluating : ℚ
  creating : ℚ
deriving DecidableEq, Repr

/-- The per-item mapping of `handleSubmit` (PaperScorer.tsx lines 131-141):
an `ApiQuestionScore` becomes a `DetailedScoreItem` whose score record is
built with the six keys in the fixed order. -/
def mapApiScore (item : ApiQuestionScore) : DetailedScoreItem :=
  { question := item.question
    score :=
      { remembering := item.remembering
        understanding := item.understanding
        applying := item.applying
        analyzing := item.analyzing
        evaluating := item.evaluating
        creating := item.creating } }

/-- One step of the `reduce` of PaperScorer.tsx lines 143-148: for each of
the six categories, `total[cat] = (total[cat] || 0) + item.score[cat]`
(`total[cat] || 0` coincides with `total[cat]` on numbers, `0 || 0 = 0`). -/
def addScore (total s : BloomWeights) : BloomWeights :=
  { remembering := total.remembering + s.remembering
    understanding := total.understanding + s.understanding
    applying := total.applying + s.applying
    analyzing := total.analyzing + s.analyzing
    evaluating := total.evaluating + s.evaluating
    creating := total.creating + s.creating }

/-- The zero vector the `reduce` of `handleSubmit` starts from. -/
def zeroWeights : BloomWeights :=
  { remembering := 0, understanding := 0, applying := 0
    analyzing := 0, evaluating := 0, creating := 0 }

/-- Model of `detailedScores.reduce(..., zero)`: fold the per-item scores into totals. -/
def totalScoreOf (items : List DetailedScoreItem) : BloomWeights :=
  items.foldl (fun t it => addScore t it.score) zeroWeights

/-- The aggregation performed by `handleSubmit` (PaperScorer.tsx lines
131-154): map the API items, reduce their score vectors into `totalScore`,
and record `totalQuestions = apiData.length`. -/
def aggregateScores (apiData : List ApiQuestionScore) : ScoreData :=
  let detailedScores := apiData.map mapApiScore
  { totalScore := totalScoreOf detailedScores
    detailedScores := detailedScores
    totalQuestions := apiData.length }

/-- The basis `StackedBar` divides by (PaperScorer.tsx lines 38-39):
`if (maxScore === 0) maxScore = totalScore || 1` where `totalScore` is the
vector's own sum (`x || 1` is `x` unless `x = 0`). -/
def stackedBarBasis (scores : BloomWeights) (maxScore : ℚ) : ℚ :=
  if maxScore = 0 then (if sumValues scores = 0 then 1 else sumValues scores)
  else maxScore

/-- A category's percentage in `StackedBar` (PaperScorer.tsx line 46):
`maxScore > 0 ? (value / maxScore) * 100 : 0` against the defaulted basis. -/
def stackedBarPercentage (scores : BloomWeights) (maxScore : ℚ)
    (c : BloomCategory) : ℚ :=
  let m := stackedBarBasis scores maxScore
  if m > 0 then getWeight scores c / m * 100 else 0

/-- Model of `dominantCategory` of the `DetailedScore` component (PaperScorer.tsx
line 75): `Object.keys(item.score).reduce((a, b) => score[a] > score[b] ? a : b)`.
The keys enumerate in the fixed insertion order, and `reduce` without an
initial value folds the tail starting from the head. -/
def dominantCategory (score : BloomWeights) : BloomCategory :=
  CATEGORIES.tail.foldl
    (fun a b => if getWeight score a > getWeight score b then a else b)
    Remembering

/-! ## The question generator (types.ts and the QuestionGenerator component) -/

/-- Lifecycle status of a generated question. -/
inductive QuestionStatus where
  | pending
  | accepted
  | discarded
deriving DecidableEq, Repr

/-- A question's `answer` field holds a boolean (true/false questions) or a
string (multiple choice). -/
inductive AnswerValue where
  | ofBool (b : Bool)
  | ofString (s : String)
deriving DecidableEq, Repr

/-- Model of `GeneratedQuestion` (types.ts): the stable local model of one question. -/
structure GeneratedQuestion where
  id : Nat
  text : String
  status : QuestionStatus
  question_type : QuestionType
  options : Option (List String) := none
  answer : Option AnswerValue := none
deriving DecidableEq, Repr

/-- Model of `ApiTFInfo` (types.ts). -/
structure ApiTFInfo where
  question : String
  answer : Bool
deriving DecidableEq, Repr

/-- Model of `ApiMCQInfo` (types.ts). -/
structure ApiMCQInfo where
  question : String
  options : List String
  answer : String
deriving DecidableEq, Repr

/-- Model of `ApiGeneratedQuestionItem` (types.ts): the tagged union of the Generate
response.  `unknown` stands for a runtime item whose `question_type` is none
of the three declared tags; it reaches the `default` branch of the mapping
switch in `handleGenerate`. -/
inductive ApiGeneratedQuestionItem where
  | text (questioninfo : String)
  | TrueFalse (questioninfo : ApiTFInfo)
  | MCQ (questioninfo : ApiMCQInfo)
  | unknown
deriving DecidableEq, Repr

/-- Whether an item bears one of the three recognized tags. -/
def recognized : ApiGeneratedQuestionItem → Bool
  | .unknown => false
  | _ => true

/-- The body of `data.map((q, index) => ...)` in `handleGenerate`
(QuestionGenerator, lines 182-210 of the component): the switch over
`q.question_type`; the `default` branch returns `null`. -/
def mkGeneratedQuestion (index : Nat) :
    ApiGeneratedQuestionItem → Option GeneratedQuestion
  | .text s =>
      some { id := index, text := s, status := .pending, question_type := .text }
  | .TrueFalse info =>
      some { id := index, text := info.question, status := .pending
             question_type := .TrueFalse, answer := some (.ofBool info.answer) }
  | .MCQ info =>
      some { id := index, text := info.question, status := .pending
             question_type := .MCQ, options := some info.options
             answer := some (.ofString info.answer) }
  | .unknown => none

/-- The whole mapping of the Generate response:
`data.map((q, index) => ...).filter(q => q !== null)`. -/
def mapResponse (data : List ApiGeneratedQuestionItem) : List GeneratedQuestion :=
  ((data.enum).map (fun p => mkGeneratedQuestion p.1 p.2)).filterMap id

/-- The requested-count record `numQuestions = {text, trueFalse, mcq}`. -/
structure NumQuestions where
  text : Nat
  trueFalse : Nat
  mcq : Nat
deriving DecidableEq, Repr

/-- Model of `Object.values(numQuestions).reduce((sum, count) => sum + count, 0)`. -/
def totalNumQuestionsOf (n : NumQuestions) : Nat :=
  [n.text, n.trueFalse, n.mcq].foldl (· + ·) 0

/-- The state of the `QuestionGenerator` component that the workflow claims
are about: the stage (`step`), whether a validated file is present
(`uploadedFile !== null`), the requested counts, the weights, the
loading/error pair the generation status derives from, and the owned
question set. -/
structure GenState where
  step : Nat
  hasFile : Bool
  numQuestions : NumQuestions
  bloomWeights : BloomWeights
  isLoading : Bool
  error : Option String := none
  generatedQuestions : List GeneratedQuestion := []
deriving DecidableEq, Repr

/-- Model of `totalNumQuestions` of the component. -/
def totalNumQuestions (s : GenState) : Nat :=
  totalNumQuestionsOf s.numQuestions

/-- Model of `totalWeight` of the component (line 104):
`Object.values(bloomWeights).reduce((sum, w) => sum + w, 0)`. -/
def totalWeight (s : GenState) : ℚ :=
  sumValues s.bloomWeights

/-- The resolution of the awaited Generate call: either the decoded response
array, or the message of the thrown error (file-encoding failure, network
failure, or the non-2xx branch `new Error(errorText || statusText)`). -/
inductive FetchOutcome where
  | success (data : List ApiGeneratedQuestionItem)
  | failure (msg : String)
deriving DecidableEq, Repr

/-- Model of `handleGenerate` (QuestionGenerator, lines 137-223 of the component),
with the awaited network interaction abstracted into the `FetchOutcome`
argument: the two early-return guards; then `setIsLoading(true)`,
`setError(null)`, `setGeneratedQuestions([])`; on success the mapped
question set replaces the (already cleared) set and `setStep(4)`; on a
caught error the message is surfaced; `finally` clears `isLoading`. -/
def handleGenerate (s : GenState) (o : FetchOutcome) : GenState :=
  if s.hasFile = false then
    { s with error := some "Please upload a file to generate questions from." }
  else if totalNumQuestions s = 0 then
    { s with error := some "Please select at least one question to generate." }
  else
    let started := { s with isLoading := true, error := none
                            generatedQuestions := [] }
    match o with
    | .success data =>
        { started with generatedQuestions := mapResponse data, step := 4
                       isLoading := false }
    | .failure msg =>
        { started with error := some ("Failed to generate questions: " ++ msg)
                       isLoading := false }

/-- The `Next` button of the footer (rendered only while `step < 3`, line
534-539): disabled when `(step === 1 && !uploadedFile) || (step === 2 &&
totalNumQuestions === 0)`, otherwise `setStep(s => s + 1)`.  Clicking a
disabled or absent button leaves the state unchanged. -/
def advance (s : GenState) : GenState :=
  if s.step < 3 then
    if (s.step = 1 ∧ s.hasFile = false) ∨ (s.step = 2 ∧ totalNumQuestions s = 0)
    then s
    else { s with step := s.step + 1 }
  else s

/-- The `disabled` predicate of the stage-3 `Generate & Review` button
(line 541): `totalWeight === 0 || isLoading || totalNumQuestions === 0`. -/
def generateButtonDisabled (s : GenState) : Bool :=
  (totalWeight s == 0) || s.isLoading || (totalNumQuestions s == 0)

/-- Whether invoking the stage-3 generate trigger actually issues a request:
the button must be enabled and both early-return guards of `handleGenerate`
(missing file, zero requested questions) must pass. -/
def generationIssuesRequest (s : GenState) : Bool :=
  !generateButtonDisabled s && s.hasFile && !(totalNumQuestions s == 0)

/-! ## The export renderers -/

/-- The answer-labelling of `handleExportTXT` (lines 245-249 of the
component): `answerIndex = options.findIndex(opt => opt === answer)`;
label with `'a' + answerIndex` and `") "` when found, else the raw answer. -/
def txtAnswerLabel (options : List String) (answer : String) : String :=
  match options.findIdx? (fun opt => opt == answer) with
  | some i => (Char.ofNat (97 + i)).toString ++ ") " ++ answer
  | none => answer

/-- The answer-labelling of `handleExportPDF` (lines 315-317 of the
component), written there with the same `findIndex` and template. -/
def pdfAnswerLabel (options : List String) (answer : String) : String :=
  match options.findIdx? (fun opt => opt == answer) with
  | some i => (Char.ofNat (97 + i)).toString ++ ") " ++ answer
  | none => answer

/-- Model of `checkPageBreak` of `handleExportPDF` (lines 273-278 of the component):
`if (yPos + neededHeight > pageHeight - margin) { doc.addPage(); yPos =
margin; }`.  Returns the cursor after the check and whether a page was
added. -/
def checkPageBreak (pageHeight margin yPos neededHeight : ℚ) : ℚ × Bool :=
  if yPos + neededHeight > pageHeight - margin then (margin, true)
  else (yPos, false)

end Bloom

/-! ## Helper lemmas -/

namespace Bloom
open BloomCategory

lemma getWeight_addScore (a b : BloomWeights) (c : BloomCategory) :
    getWeight (addScore a b) c = getWeight a c + getWeight b c := by
  cases c <;> rfl

lemma sumValues_eq (w : BloomWeights) :
    sumValues w = w.remembering + w.understanding + w.applying
      + w.analyzing + w.evaluating + w.creating := by
  simp [sumValues, weightValues, List.foldl]

lemma getWeight_totalScore_foldl (items : List DetailedScoreItem)
    (z : BloomWeights) (c : BloomCategory) :
    getWeight (items.foldl (fun t it => addScore t it.score) z) c
      = getWeight z c + (items.map (fun it => getWeight it.score c)).sum := by
  induction items generalizing z with
  | nil => simp
  | cons it rest ih =>
      simp [List.foldl, ih, getWeight_addScore]
      ring

lemma getWeight_zero (c : BloomCategory) : getWeight zeroWeights c = 0 := by
  cases c <;> rfl

lemma weights_ext {a b : BloomWeights}
    (h : ∀ c, getWeight a c = getWeight b c) : a = b := by
  obtain ⟨a1, a2, a3, a4, a5, a6⟩ := a
  obtain ⟨b1, b2, b3, b4, b5, b6⟩ := b
  have h0 := h Remembering
  have h1 := h Understanding
  have h2 := h Applying
  have h3 := h Analyzing
  have h4 := h Evaluating
  have h5 := h Creating
  simp [getWeight] at h0 h1 h2 h3 h4 h5
  simp [h0, h1, h2, h3, h4, h5]

lemma mapResponse_enumFrom_ids (l : List ApiGeneratedQuestionItem) :
    ∀ n, (((l.enumFrom n).filterMap (fun p => mkGeneratedQuestion p.1 p.2)).map
        (fun q => q.id))
      = ((l.enumFrom n).filter (fun p => recognized p.2)).map Prod.fst := by
  induction l with
  | nil => intro n; rfl
  | cons q t ih =>
      intro n
      simp only [mkGeneratedQuestion, recognized] at ih
      cases q <;>
        simp only [List.enumFrom, List.filterMap_cons, List.filter_cons,
          List.map_cons, mkGeneratedQuestion, recognized] <;>
        simp [ih (n + 1)]

lemma mapResponse_ids (l : List ApiGeneratedQuestionItem) :
    (mapResponse l).map (fun q => q.id)
      = (l.enum.filter (fun p => recognized p.2)).map Prod.fst := by
  have hfuse : mapResponse l
      = (l.enum).filterMap (fun p => mkGeneratedQuestion p.1 p.2) := by
    simp [mapResponse, List.filterMap_map, Function.comp_def]
  rw [hfuse, List.enum]
  exact mapResponse_enumFrom_ids l 0

lemma enumFrom_filter_length (l : List ApiGeneratedQuestionItem) :
    ∀ n, ((l.enumFrom n).filter (fun p => recognized p.2)).length
      = (l.filter recognized).length := by
  induction l with
  | nil => intro n; rfl
  | cons q t ih =>
      intro n
      cases hq : recognized q <;>
        simp [List.enumFrom, List.filter, hq, ih (n + 1)]

lemma mapResponse_status (l : List ApiGeneratedQuestionItem) :
    ∀ q ∈ mapResponse l, q.status = QuestionStatus.pending := by
  intro q hq
  simp only [mapResponse, List.filterMap_map, List.mem_filterMap] at hq
  obtain ⟨⟨i, item⟩, hmem, hmk⟩ := hq
  cases item <;> simp [mkGeneratedQuestion] at hmk <;> simp [← hmk]

lemma enumFrom_filter_all (l : List ApiGeneratedQuestionItem)
    (h : ∀ item ∈ l, recognized item = true) :
    ∀ n, ((l.enumFrom n).filter (fun p => recognized p.2)).map Prod.fst
      = List.range' n l.length := by
  induction l with
  | nil => intro n; rfl
  | cons q t ih =>
      intro n
      have hq : recognized q = true := h q (by simp)
      simp [List.enumFrom, List.filter, hq, List.range',
        ih (fun i hi => h i (by simp [hi])) (n + 1)]

end Bloom

/-! ## Claim theorems -/

namespace Bloom
open BloomCategory

/-- C1 (counterexample): the claim that a failed Generate call leaves the
previously held generated-question set intact is false: `handleGenerate`
clears the question set before issuing the request, so from a state with a
file present, requested count 1 and one previously held question, a failed
call leaves an empty set, different from the prior one. -/
theorem generate_failure_clears_questions :
    (({ step := 4, hasFile := true, numQuestions := ⟨1, 0, 0⟩,
        bloomWeights := ⟨20, 20, 20, 20, 10, 10⟩, isLoading := false,
        generatedQuestions :=
          [{ id := 0
             text := "old"
             status := .accepted
             question_type := .text }] } : GenState).hasFile = true)
    ∧ 0 < totalNumQuestions
        { step := 4, hasFile := true, numQuestions := ⟨1, 0, 0⟩,
          bloomWeights := ⟨20, 20, 20, 20, 10, 10⟩, isLoading := false,
          generatedQuestions :=
            [{ id := 0
               text := "old"
               status := .accepted
               question_type := .text }] }
    ∧ (handleGenerate
        { step := 4, hasFile := true, numQuestions := ⟨1, 0, 0⟩,
          bloomWeights := ⟨20, 20, 20, 20, 10, 10⟩, isLoading := false,
          generatedQuestions :=
            [{ id := 0
               text := "old"
               status := .accepted
               question_type := .text }] }
        (.failure "network down")).generatedQuestions
      ≠ [{ id := 0
           text := "old"
           status := .accepted
           question_type := .text }] := by
  refine ⟨rfl, by decide, by decide⟩

/-- C1 (amended): if the Generate request fails from a state with a file
present and total requested count > 0, `handleGenerate` leaves the stage
unchanged, clears the loading flag, and sets the generation status to error
with the human-readable message `Failed to generate questions: ...`; the
question set, however, was cleared when generation started and is empty
after the failed call, not the previously held set. -/
theorem generate_failure_spec (s : GenState) (msg : String)
    (hf : s.hasFile = true) (hn : totalNumQuestions s ≠ 0) :
    (handleGenerate s (.failure msg)).step = s.step
    ∧ (handleGenerate s (.failure msg)).isLoading = false
    ∧ (handleGenerate s (.failure msg)).error
        = some ("Failed to generate questions: " ++ msg)
    ∧ (handleGenerate s (.failure msg)).generatedQuestions = [] := by
  simp [handleGenerate, hf, hn]

/-- C1 (witness): the amended failure behaviour at a concrete state. -/
theorem generate_failure_spec_witness :
    (handleGenerate
        { step := 3, hasFile := true, numQuestions := ⟨2, 1, 0⟩,
          bloomWeights := ⟨20, 20, 20, 20, 10, 10⟩, isLoading := false }
        (.failure "boom")).step = 3
    ∧ (handleGenerate
        { step := 3, hasFile := true, numQuestions := ⟨2, 1, 0⟩,
          bloomWeights := ⟨20, 20, 20, 20, 10, 10⟩, isLoading := false }
        (.failure "boom")).error
      = some ("Failed to generate questions: " ++ "boom")
    ∧ (handleGenerate
        { step := 3, hasFile := true, numQuestions := ⟨2, 1, 0⟩,
          bloomWeights := ⟨20, 20, 20, 20, 10, 10⟩, isLoading := false }
        (.failure "boom")).generatedQuestions = [] :=
  have h := generate_failure_spec
    { step := 3, hasFile := true, numQuestions := ⟨2, 1, 0⟩,
      bloomWeights := ⟨20, 20, 20, 20, 10, 10⟩, isLoading := false }
    "boom" rfl (by decide)
  ⟨h.1, h.2.2.1, h.2.2.2⟩

/-- C2 (counterexample): on the tied vector with Remembering = Understanding
= 5 and all other categories 0, `dominantCategory` returns Understanding,
not Remembering as the claim states: the fold keeps the accumulator only
under a strict `>`, so a tie hands the win to the later category. -/
theorem dominantCategory_tie_counterexample :
    dominantCategory ⟨5, 5, 0, 0, 0, 0⟩ = Understanding
    ∧ dominantCategory ⟨5, 5, 0, 0, 0, 0⟩ ≠ Remembering := by
  decide

set_option maxHeartbeats 1600000 in
/-- C2 (amended): for every score vector, `dominantCategory` returns a
category holding the maximal value, and when two or more categories are tied
at the maximum it returns the LATEST tied category in the fixed order:
every category strictly after the result in the fixed order has a strictly
smaller value. -/
theorem dominantCategory_max_latest (score : BloomWeights) :
    (∀ c, getWeight score c ≤ getWeight score (dominantCategory score))
    ∧ (∀ c, catIdx (dominantCategory score) < catIdx c →
        getWeight score c < getWeight score (dominantCategory score)) := by
  obtain ⟨r, u, a, an, e, cr⟩ := score
  constructor
  · intro c
    simp only [dominantCategory, CATEGORIES, List.tail_cons, List.foldl]
    split_ifs <;> cases c <;> simp_all only [getWeight] <;> linarith
  · intro c
    simp only [dominantCategory, CATEGORIES, List.tail_cons, List.foldl]
    split_ifs <;> cases c <;> simp_all only [getWeight, catIdx] <;>
      first
        | linarith
        | (intro h; first | trivial | linarith)

/-- C2 (witness): the maximality and latest-tie-break facts applied to the
tied vector {Remembering 5, Understanding 5, others 0}. -/
theorem dominantCategory_max_latest_witness :
    getWeight ⟨5, 5, 0, 0, 0, 0⟩ Creating
        < getWeight ⟨5, 5, 0, 0, 0, 0⟩ (dominantCategory ⟨5, 5, 0, 0, 0, 0⟩)
    ∧ getWeight ⟨5, 5, 0, 0, 0, 0⟩ Remembering
        ≤ getWeight ⟨5, 5, 0, 0, 0, 0⟩ (dominantCategory ⟨5, 5, 0, 0, 0, 0⟩) :=
  have h := dominantCategory_max_latest ⟨5, 5, 0, 0, 0, 0⟩
  ⟨h.2 Creating (by decide), h.1 Remembering⟩

end Bloom

namespace Bloom
open BloomCategory

/-- C3 (counterexample): the claim that a successful Generate response
always yields fresh ids exactly 0..n-1 is false: ids come from the
pre-filter index of the response array, so a response whose first item bears
an unrecognized tag yields a single question with id 1, not id 0. -/
theorem generate_success_ids_counterexample :
    ((handleGenerate
        { step := 3, hasFile := true, numQuestions := ⟨1, 1, 0⟩,
          bloomWeights := ⟨20, 20, 20, 20, 10, 10⟩, isLoading := false }
        (.success [ApiGeneratedQuestionItem.unknown,
          ApiGeneratedQuestionItem.text "q"])).generatedQuestions.map
            (fun q => q.id) = [1])
    ∧ ((handleGenerate
        { step := 3, hasFile := true, numQuestions := ⟨1, 1, 0⟩,
          bloomWeights := ⟨20, 20, 20, 20, 10, 10⟩, isLoading := false }
        (.success [ApiGeneratedQuestionItem.unknown,
          ApiGeneratedQuestionItem.text "q"])).generatedQuestions.length = 1)
    ∧ ((handleGenerate
        { step := 3, hasFile := true, numQuestions := ⟨1, 1, 0⟩,
          bloomWeights := ⟨20, 20, 20, 20, 10, 10⟩, isLoading := false }
        (.success [ApiGeneratedQuestionItem.unknown,
          ApiGeneratedQuestionItem.text "q"])).generatedQuestions.map
            (fun q => q.id) ≠ List.range 1) := by
  refine ⟨by decide, by decide, by decide⟩

/-- C3 (amended): on a successful Generate response from a state with a
file present and total requested count > 0, `handleGenerate` replaces the
entire question set with the mapped response, every resulting question has
status pending, the stage is forced to 4, and the generation status becomes
success (loading cleared, no error); each question keeps its source index
as id, so ids are exactly 0..n-1 precisely when every response item bears a
recognized tag. -/
theorem generate_success_spec (s : GenState) (data : List ApiGeneratedQuestionItem)
    (hf : s.hasFile = true) (hn : totalNumQuestions s ≠ 0) :
    (handleGenerate s (.success data)).step = 4
    ∧ (handleGenerate s (.success data)).isLoading = false
    ∧ (handleGenerate s (.success data)).error = none
    ∧ (handleGenerate s (.success data)).generatedQuestions = mapResponse data
    ∧ (∀ q ∈ (handleGenerate s (.success data)).generatedQuestions,
        q.status = QuestionStatus.pending)
    ∧ ((∀ item ∈ data, recognized item = true) →
        (handleGenerate s (.success data)).generatedQuestions.map (fun q => q.id)
          = List.range data.length) := by
  have hgen : handleGenerate s (.success data)
      = { s with
            generatedQuestions := mapResponse data
            step := 4
            isLoading := false
            error := none } := by
    simp [handleGenerate, hf, hn]
  refine ⟨by rw [hgen], by rw [hgen], by rw [hgen], by rw [hgen], ?_, ?_⟩
  · rw [hgen]
    exact mapResponse_status data
  · intro hall
    rw [hgen]
    show (mapResponse data).map (fun q => q.id) = List.range data.length
    rw [mapResponse_ids, List.enum, enumFrom_filter_all data hall 0,
      ← List.range_eq_range']

/-- C3 (witness): the success behaviour at a concrete state with a
fully-recognized two-item response: stage 4, ids 0 and 1, all pending. -/
theorem generate_success_spec_witness :
    (handleGenerate
        { step := 3, hasFile := true, numQuestions := ⟨1, 1, 0⟩,
          bloomWeights := ⟨20, 20, 20, 20, 10, 10⟩, isLoading := false }
        (.success [ApiGeneratedQuestionItem.text "qa",
          ApiGeneratedQuestionItem.TrueFalse ⟨"qb", true⟩])).step = 4
    ∧ (handleGenerate
        { step := 3, hasFile := true, numQuestions := ⟨1, 1, 0⟩,
          bloomWeights := ⟨20, 20, 20, 20, 10, 10⟩, isLoading := false }
        (.success [ApiGeneratedQuestionItem.text "qa",
          ApiGeneratedQuestionItem.TrueFalse ⟨"qb", true⟩])).generatedQuestions.map
            (fun q => q.id) = List.range 2 :=
  have h := generate_success_spec
    { step := 3, hasFile := true, numQuestions := ⟨1, 1, 0⟩,
      bloomWeights := ⟨20, 20, 20, 20, 10, 10⟩, isLoading := false }
    [ApiGeneratedQuestionItem.text "qa",
      ApiGeneratedQuestionItem.TrueFalse ⟨"qb", true⟩]
    rfl (by decide)
  ⟨h.1, h.2.2.2.2.2 (by decide)⟩

/-- C4: the response mapper drops every item whose tag is not one of
text/TrueFalse/MCQ without failing the batch, emits the recognized items in
input order, and assigns each emitted question the id of its index in the
original pre-filter input sequence; for an input of a recognized item, an
unknown-tag item and a recognized item, the output has length 2 with ids
0 and 2. -/
theorem mapResponse_drops_unknown (l : List ApiGeneratedQuestionItem) :
    (mapResponse l).map (fun q => q.id)
        = (l.enum.filter (fun p => recognized p.2)).map Prod.fst
    ∧ (mapResponse l).length = (l.filter recognized).length
    ∧ (mapResponse [ApiGeneratedQuestionItem.text "q0",
        ApiGeneratedQuestionItem.unknown,
        ApiGeneratedQuestionItem.TrueFalse ⟨"q2", true⟩]).length = 2
    ∧ (mapResponse [ApiGeneratedQuestionItem.text "q0",
        ApiGeneratedQuestionItem.unknown,
        ApiGeneratedQuestionItem.TrueFalse ⟨"q2", true⟩]).map (fun q => q.id)
      = [0, 2] := by
  refine ⟨mapResponse_ids l, ?_, by decide, by decide⟩
  have h := congrArg List.length (mapResponse_ids l)
  simp only [List.length_map] at h
  rw [h, List.enum, enumFrom_filter_length l 0]

end Bloom

namespace Bloom
open BloomCategory

/-- C5: `totalWeight` equals the sum of the six weight entries, and from a
state with a file present, total requested question count > 0 and no request
in flight, invoking the stage-3 generate trigger issues a request exactly
when the weight total is non-zero. -/
theorem totalWeight_gates_generation (s : GenState)
    (hf : s.hasFile = true) (hn : 0 < totalNumQuestions s)
    (hl : s.isLoading = false) :
    totalWeight s = s.bloomWeights.remembering + s.bloomWeights.understanding
      + s.bloomWeights.applying + s.bloomWeights.analyzing
      + s.bloomWeights.evaluating + s.bloomWeights.creating
    ∧ (generationIssuesRequest s = true ↔ totalWeight s ≠ 0) := by
  have htn : (totalNumQuestions s == 0) = false := by
    simp [Nat.pos_iff_ne_zero] at hn
    simp [hn]
  constructor
  · exact sumValues_eq s.bloomWeights
  · simp [generationIssuesRequest, generateButtonDisabled, hf, hl, htn]

/-- C5 (witness): at a concrete ready state with non-zero weights the
trigger issues a request, and the total is the sum of the entries. -/
theorem totalWeight_gates_generation_witness :
    generationIssuesRequest
        { step := 3, hasFile := true, numQuestions := ⟨5, 0, 0⟩,
          bloomWeights := ⟨20, 20, 20, 20, 10, 10⟩, isLoading := false } = true
    ∧ totalWeight
        { step := 3, hasFile := true, numQuestions := ⟨5, 0, 0⟩,
          bloomWeights := ⟨20, 20, 20, 20, 10, 10⟩, isLoading := false }
      = 20 + 20 + 20 + 20 + 10 + 10 :=
  have h := totalWeight_gates_generation
    { step := 3, hasFile := true, numQuestions := ⟨5, 0, 0⟩,
      bloomWeights := ⟨20, 20, 20, 20, 10, 10⟩, isLoading := false }
    rfl (by decide) rfl
  ⟨h.2.mpr (by norm_num [totalWeight, sumValues, weightValues]), h.1⟩

/-- C6: for every API score sequence, the aggregation of `handleSubmit`
produces a `ScoreData` whose total score in each category is exactly the
sum of the per-item scores of that category over the detailed score items,
whose question count equals the number of items, and whose total is
independent of item order. -/
theorem aggregateScores_spec (apiData : List ApiQuestionScore) :
    (∀ c, getWeight (aggregateScores apiData).totalScore c
        = (((aggregateScores apiData).detailedScores).map
            (fun it => getWeight it.score c)).sum)
    ∧ (aggregateScores apiData).totalQuestions = apiData.length
    ∧ (aggregateScores apiData).detailedScores.length = apiData.length
    ∧ ∀ apiData2 : List ApiQuestionScore, apiData.Perm apiData2 →
        (aggregateScores apiData2).totalScore
          = (aggregateScores apiData).totalScore := by
  refine ⟨fun c => ?_, rfl, by simp [aggregateScores], fun l2 hperm => ?_⟩
  · simp [aggregateScores, totalScoreOf, getWeight_totalScore_foldl, getWeight_zero]
  · apply weights_ext
    intro c
    simp [aggregateScores, totalScoreOf, getWeight_totalScore_foldl, getWeight_zero]
    rw [← List.map_map, ← List.map_map]
    exact (List.Perm.sum_eq ((hperm.map mapApiScore).map
      (fun it => getWeight it.score c))).symm

/-- C6 (witness): aggregation of a concrete two-item sequence is invariant
under swapping the items, and counts two questions. -/
theorem aggregateScores_spec_witness :
    (aggregateScores [⟨"q2", .text, none, 0, 1, 0, 2, 0, 3⟩,
        ⟨"q1", .text, none, 1, 2, 3, 4, 5, 6⟩]).totalScore
      = (aggregateScores [⟨"q1", .text, none, 1, 2, 3, 4, 5, 6⟩,
          ⟨"q2", .text, none, 0, 1, 0, 2, 0, 3⟩]).totalScore
    ∧ (aggregateScores [⟨"q1", .text, none, 1, 2, 3, 4, 5, 6⟩,
        ⟨"q2", .text, none, 0, 1, 0, 2, 0, 3⟩]).totalQuestions = 2 :=
  have h := aggregateScores_spec
    [⟨"q1", .text, none, 1, 2, 3, 4, 5, 6⟩, ⟨"q2", .text, none, 0, 1, 0, 2, 0, 3⟩]
  ⟨h.2.2.2 [⟨"q2", .text, none, 0, 1, 0, 2, 0, 3⟩,
      ⟨"q1", .text, none, 1, 2, 3, 4, 5, 6⟩]
    (List.Perm.swap _ _ []), h.2.1⟩

end Bloom

namespace Bloom
open BloomCategory

/-- C7: the text export and the paginated export produce the identical
answer label for a multiple-choice question: the letter at 'a' plus the
index of the first option equal to the answer, followed by ") " and the
answer, when a match exists, and the raw answer string otherwise; for
options Paris/Lyon/Nice and answer Lyon both label the answer "b) Lyon". -/
theorem exportAnswerLabel_equal (options : List String) (answer : String) :
    txtAnswerLabel options answer = pdfAnswerLabel options answer
    ∧ (options.findIdx? (fun opt => opt == answer) = none →
        txtAnswerLabel options answer = answer)
    ∧ (∀ i, options.findIdx? (fun opt => opt == answer) = some i →
        txtAnswerLabel options answer
          = (Char.ofNat (97 + i)).toString ++ ") " ++ answer)
    ∧ txtAnswerLabel ["Paris", "Lyon", "Nice"] "Lyon" = "b) Lyon"
    ∧ pdfAnswerLabel ["Paris", "Lyon", "Nice"] "Lyon" = "b) Lyon" := by
  refine ⟨rfl, ?_, ?_, by decide, by decide⟩
  · intro h
    simp [txtAnswerLabel, h]
  · intro i h
    simp [txtAnswerLabel, h]

/-- C7 (witness): the matched and unmatched labellings at concrete inputs. -/
theorem exportAnswerLabel_equal_witness :
    txtAnswerLabel ["Paris", "Lyon", "Nice"] "Lyon"
        = (Char.ofNat (97 + 1)).toString ++ ") " ++ "Lyon"
    ∧ txtAnswerLabel ["Paris", "Lyon", "Nice"] "Oslo" = "Oslo" :=
  ⟨(exportAnswerLabel_equal ["Paris", "Lyon", "Nice"] "Lyon").2.2.1 1 (by decide),
    (exportAnswerLabel_equal ["Paris", "Lyon", "Nice"] "Oslo").2.1 (by decide)⟩

/-- C8 (counterexample): the claim's page-break threshold `H - 2M - cursor`
is wrong for the code: with page height 100, margin 15, cursor 20 and a
block of extent 60, the claim predicts a page break (60 > 100 - 2*15 - 20),
but `checkPageBreak` does not break (20 + 60 is not above 100 - 15) and
leaves the cursor unchanged. -/
theorem checkPageBreak_threshold_counterexample :
    (60 : ℚ) > 100 - 2 * 15 - 20
    ∧ checkPageBreak 100 15 20 60 = (20, false) := by
  norm_num [checkPageBreak]

/-- C8 (amended): `checkPageBreak` starts a new page precisely when the
block needs more space than `pageHeight - margin - cursor` (the cursor
already includes the top margin, so only the bottom margin is subtracted
from the page height); on a break the cursor is reset to exactly the
margin, and otherwise the cursor is unchanged and no page is added. -/
theorem checkPageBreak_spec (pageHeight margin yPos neededHeight : ℚ) :
    ((checkPageBreak pageHeight margin yPos neededHeight).2 = true
        ↔ neededHeight > pageHeight - margin - yPos)
    ∧ ((checkPageBreak pageHeight margin yPos neededHeight).2 = true →
        (checkPageBreak pageHeight margin yPos neededHeight).1 = margin)
    ∧ ((checkPageBreak pageHeight margin yPos neededHeight).2 = false →
        checkPageBreak pageHeight margin yPos neededHeight
          = (yPos, false)) := by
  unfold checkPageBreak
  split_ifs with h
  · exact ⟨⟨fun _ => by linarith, fun _ => rfl⟩, fun _ => rfl,
      fun hc => by simp at hc⟩
  · refine ⟨⟨fun hc => by simp at hc, fun hgt => ?_⟩,
      fun hc => by simp at hc, fun _ => rfl⟩
    exact absurd (by linarith : yPos + neededHeight > pageHeight - margin) h

/-- C8 (witness): a breaking call resets the cursor to the margin, and a
fitting call leaves the cursor unchanged with no page added. -/
theorem checkPageBreak_spec_witness :
    (checkPageBreak 100 15 20 70).1 = 15
    ∧ checkPageBreak 100 15 20 5 = (20, false) :=
  ⟨(checkPageBreak_spec 100 15 20 70).2.1 (by norm_num [checkPageBreak]),
    (checkPageBreak_spec 100 15 20 5).2.2 (by norm_num [checkPageBreak])⟩

/-- C9: the StackedBar percentage computation is division-safe: with no
explicit basis (`maxScore` argument 0) the basis defaults to the vector's
own sum, or to 1 when that sum is 0, hence is never zero; and for a vector
of non-negative entries summing to 0 every category's percentage is 0. -/
theorem stackedBar_division_safe (scores : BloomWeights) :
    stackedBarBasis scores 0 ≠ 0
    ∧ (sumValues scores ≠ 0 → stackedBarBasis scores 0 = sumValues scores)
    ∧ ((∀ c, 0 ≤ getWeight scores c) → sumValues scores = 0 →
        ∀ c, stackedBarPercentage scores 0 c = 0) := by
  refine ⟨?_, ?_, ?_⟩
  · by_cases h : sumValues scores = 0 <;> simp [stackedBarBasis, h]
  · intro h
    simp [stackedBarBasis, h]
  · intro hnn hsum c
    have hc : getWeight scores c = 0 := by
      have he := sumValues_eq scores
      rw [hsum] at he
      have h0 := hnn Remembering
      have h1 := hnn Understanding
      have h2 := hnn Applying
      have h3 := hnn Analyzing
      have h4 := hnn Evaluating
      have h5 := hnn Creating
      simp [getWeight] at h0 h1 h2 h3 h4 h5 ⊢
      cases c <;> simp [getWeight] <;> linarith
    simp [stackedBarPercentage, stackedBarBasis, hsum, hc]

/-- C9 (witness): on the all-zero vector the defaulted basis is non-zero
and the Remembering percentage is 0. -/
theorem stackedBar_division_safe_witness :
    stackedBarBasis zeroWeights 0 ≠ 0
    ∧ stackedBarPercentage zeroWeights 0 Remembering = 0 :=
  have h := stackedBar_division_safe zeroWeights
  ⟨h.1, h.2.2 (fun c => by cases c <;> simp [getWeight, zeroWeights])
    (by simp [sumValues_eq, zeroWeights]) Remembering⟩

/-- C10: the advance transition is guarded: it either leaves the stage
unchanged or increments it by one; it changes the stage only when the stage
is below 4 and the current-stage guard holds (stage 1 requires a file,
stage 2 requires a positive total requested question count); advancing at
stage 1 with no file is a no-op, and advancing at stage 2 with total
requested count 0 is a no-op. -/
theorem advance_guarded (s : GenState) :
    ((advance s).step = s.step ∨ (advance s).step = s.step + 1)
    ∧ ((advance s).step ≠ s.step →
        s.step < 4 ∧ (s.step = 1 → s.hasFile = true)
          ∧ (s.step = 2 → 0 < totalNumQuestions s))
    ∧ (s.step = 1 → s.hasFile = false → advance s = s)
    ∧ (s.step = 2 → totalNumQuestions s = 0 → advance s = s) := by
  unfold advance
  split_ifs with h1 h2
  · simp
  · push_neg at h2
    refine ⟨Or.inr rfl, fun _ => ⟨by omega, ?_, ?_⟩, ?_, ?_⟩
    · intro hs
      simpa using h2.1 hs
    · intro hs
      exact Nat.pos_of_ne_zero (h2.2 hs)
    · intro hs hb
      exact absurd hb (h2.1 hs)
    · intro hs hz
      exact absurd hz (h2.2 hs)
  · simp

/-- C10 (witness): the two concrete no-ops: stage 1 without a file and
stage 2 with zero requested questions. -/
theorem advance_guarded_witness :
    advance
        { step := 1, hasFile := false, numQuestions := ⟨3, 0, 0⟩,
          bloomWeights := ⟨20, 20, 20, 20, 10, 10⟩, isLoading := false }
      = { step := 1, hasFile := false, numQuestions := ⟨3, 0, 0⟩,
          bloomWeights := ⟨20, 20, 20, 20, 10, 10⟩, isLoading := false }
    ∧ advance
        { step := 2, hasFile := true, numQuestions := ⟨0, 0, 0⟩,
          bloomWeights := ⟨20, 20, 20, 20, 10, 10⟩, isLoading := false }
      = { step := 2, hasFile := true, numQuestions := ⟨0, 0, 0⟩,
          bloomWeights := ⟨20, 20, 20, 20, 10, 10⟩, isLoading := false } :=
  ⟨(advance_guarded
      { step := 1, hasFile := false, numQuestions := ⟨3, 0, 0⟩,
        bloomWeights := ⟨20, 20, 20, 20, 10, 10⟩, isLoading := false }).2.2.1
    rfl rfl,
   (advance_guarded
      { step := 2, hasFile := true, numQuestions := ⟨0, 0, 0⟩,
        bloomWeights := ⟨20, 20, 20, 20, 10, 10⟩, isLoading := false }).2.2.2
    rfl (by decide)⟩

end Bloom
